import Mathlib

/-!
Verification of the epidemiological aggregation layer of the Measles_Report
repository (src/data_fetcher.py, src/choropleth_data.py) against its
natural-language specification.

The relational warehouse is shallowly embedded as Lean lists of rows, and
each SQL/pandas pipeline that a claim mentions is translated into an
executable Lean function over those lists.  SQL `COUNT(DISTINCT _)` becomes
`List.dedup` + `length`, `ORDER BY` becomes `List.insertionSort`, `LIMIT n`
becomes `List.take n`, `ROUND(x, d)` becomes explicit rational rounding,
and string `LIKE '%x%'` becomes a substring test on character lists.
-/

namespace MeaslesReport

/-- `segIn needle hay`: does `needle` occur as a contiguous segment of `hay`?
Embedding of SQL `LIKE '%needle%'` on the character-list level. -/
def segIn (n : List Char) : List Char → Bool
  | [] => n.isEmpty
  | c :: t => n.isPrefixOf (c :: t) || segIn n t

/-- `hasSeg hay needle`: string-level `LIKE '%needle%'`. -/
def hasSeg (hay needle : String) : Bool :=
  segIn needle.toList hay.toList

/-- ASCII lower-casing of one character (the character-level behaviour of
SQL `LOWER` / Python `.lower()` on the ASCII data this system stores). -/
def lowerChar (c : Char) : Char :=
  if 'A' ≤ c ∧ c ≤ 'Z' then Char.ofNat (c.toNat + 32) else c

/-- ASCII lower-casing of a string. -/
def strLower (s : String) : String :=
  String.mk (s.toList.map lowerChar)

/-- Decimal value of a digit character list (the semantics of
`CAST(_ AS INTEGER)` on a digit string). -/
def digitsToNat (l : List Char) : ℕ :=
  l.foldl (fun n c => n * 10 + (c.toNat - 48)) 0

/-- SQL regex `'^[0-9]+$'`: nonempty and all digits. -/
def isDigitStr (s : String) : Bool :=
  !s.toList.isEmpty && s.toList.all (fun c => c.isDigit)

/-- `CAST(s AS INTEGER)` for a digit string. -/
def digitVal (s : String) : Nat :=
  digitsToNat s.toList

/-- Age banding of `get_measles_age_sex_distribution` (data_fetcher.py
lines 186-199): only the full-digit regex is classified, everything else is
`Unknown`; 5-year bands 0-4 .. 15-19 then 10-year bands up to 50+. -/
def ageGroupSite1 (s : String) : String :=
  if isDigitStr s then
    let n := digitVal s
    if n ≤ 4 then "0-4"
    else if n ≤ 9 then "5-9"
    else if n ≤ 14 then "10-14"
    else if n ≤ 19 then "15-19"
    else if n ≤ 29 then "20-29"
    else if n ≤ 39 then "30-39"
    else if n ≤ 49 then "40-49"
    else if 50 ≤ n then "50+"
    else "Unknown"
  else "Unknown"

/-- Age banding of the parameterised `get_measles_age_sex_distribution`
(data_fetcher.py lines 1721-1737): digit regex only, 5-year bands. -/
def ageGroupSite3 (s : String) : String :=
  if isDigitStr s then
    let n := digitVal s
    if n ≤ 4 then "0-4"
    else if n ≤ 9 then "5-9"
    else if n ≤ 14 then "10-14"
    else if n ≤ 19 then "15-19"
    else if n ≤ 24 then "20-24"
    else if n ≤ 29 then "25-29"
    else if n ≤ 34 then "30-34"
    else if n ≤ 39 then "35-39"
    else if n ≤ 44 then "40-44"
    else if n ≤ 49 then "45-49"
    else if 50 ≤ n then "50+"
    else "Unknown"
  else "Unknown"

/-- SQL regex `'^[0-9]{4}-[0-9]{2}-[0-9]{2}'` (prefix match). -/
def isoDatePre (s : String) : Bool :=
  match s.toList with
  | a :: b :: c :: d :: e :: f :: g :: h :: i :: j :: _ =>
      a.isDigit && b.isDigit && c.isDigit && d.isDigit && (e == '-') &&
      f.isDigit && g.isDigit && (h == '-') && i.isDigit && j.isDigit
  | _ => false

/-- SQL regex `'^[0-9]{2}/[0-9]{2}/[0-9]{4}'` (prefix match). -/
def slashDatePre (s : String) : Bool :=
  match s.toList with
  | a :: b :: c :: d :: e :: f :: g :: h :: i :: j :: _ =>
      a.isDigit && b.isDigit && (c == '/') && d.isDigit && e.isDigit &&
      (f == '/') && g.isDigit && h.isDigit && i.isDigit && j.isDigit
  | _ => false

/-- `REGEXP_REPLACE(s, '[^0-9]', '', 'g')` then `CAST(_ AS INTEGER)`. -/
def embeddedDigitsVal (s : String) : Nat :=
  digitsToNat (s.toList.filter (fun c => c.isDigit))

/-- `calculated_age` of `get_measles_demographic_data` (data_fetcher.py
lines 907-924).  The two date branches call the database clock
(`AGE(CURRENT_DATE, _)`); that external dependency is abstracted as the
parameter `ageFromDate`.  The order of the branches mirrors the SQL CASE. -/
def calculatedAge (ageFromDate : String → Int) (s : String) : Option Int :=
  if isoDatePre s then some (ageFromDate s)
  else if slashDatePre s then some (ageFromDate s)
  else if isDigitStr s then some (digitVal s)
  else if hasSeg (strLower s) "month" || hasSeg (strLower s) "week" then some 0
  else if s.toList.any (fun c => c.isDigit) then some (embeddedDigitsVal s)
  else none

/-- Coarse age banding of `get_measles_demographic_data` (data_fetcher.py
lines 932-940): `NULL → Unknown`, `< 1 → <1 year`, then coarse bands. -/
def coarseBand (a : Option Int) : String :=
  match a with
  | none => "Unknown"
  | some n =>
    if n < 1 then "<1 year"
    else if n ≤ 4 then "1-4 years"
    else if n ≤ 14 then "5-14 years"
    else if n ≤ 44 then "15-44 years"
    else if 45 ≤ n then "45+ years"
    else "Unknown"

/-- Coarse-scheme classification of a free-text age value
(`get_measles_demographic_data` call site). -/
def ageGroupSite2 (ageFromDate : String → Int) (s : String) : String :=
  coarseBand (calculatedAge ageFromDate s)

/-- Substring sex classifier (data_fetcher.py lines 1739-1743, 1620-1623,
942-946): `LIKE '%male%' AND NOT LIKE '%female%' → Male`,
`LIKE '%female%' → Female`, else `Unknown`, on the lower-cased value. -/
def sexSubstr (s : String) : String :=
  if hasSeg (strLower s) "male" && !hasSeg (strLower s) "female" then "Male"
  else if hasSeg (strLower s) "female" then "Female"
  else "Unknown"

/-- Exact-equality sex classifier of `get_measles_weekly_by_sex`
(data_fetcher.py lines 1287-1291): `LOWER(v) = 'male' → Male`,
`LOWER(v) = 'female' → Female`, else `Unknown`. -/
def sexExact (s : String) : String :=
  if strLower s = "male" then "Male"
  else if strLower s = "female" then "Female"
  else "Unknown"

/-- PostgreSQL `ROUND(x, 1)` on `NUMERIC`: round half away from zero to one
decimal place. -/
def sqlRound1 (x : ℚ) : ℚ :=
  if 0 ≤ x then (⌊x * 10 + 1/2⌋ : ℚ) / 10 else -((⌊(-x) * 10 + 1/2⌋ : ℚ) / 10)

/-- PostgreSQL `ROUND(x, 2)` on `NUMERIC`: round half away from zero to two
decimal places. -/
def sqlRound2 (x : ℚ) : ℚ :=
  if 0 ≤ x then (⌊x * 100 + 1/2⌋ : ℚ) / 100 else -((⌊(-x) * 100 + 1/2⌋ : ℚ) / 100)

/-- numpy/pandas `.round(2)`: round half to even to two decimal places. -/
def npRound2 (x : ℚ) : ℚ :=
  let y := x * 100
  let f := ⌊y⌋
  if y - f < 1/2 then (f : ℚ) / 100
  else if (1 : ℚ)/2 < y - f then (f + 1 : ℚ) / 100
  else if f % 2 = 0 then (f : ℚ) / 100 else (f + 1 : ℚ) / 100

/-- The saturating choropleth rate (choropleth_data.py lines 114-121 and
162-169): `ROUND(count * 100000.0 / GREATEST(count, floorN), 2)`. -/
def choroRate (floorN : ℕ) (c : ℕ) : ℚ :=
  sqlRound2 ((c * 100000 : ℚ) / max (c : ℚ) (floorN : ℚ))

/-- One row of the age/sex case-count frame fed to the attack-rate
post-processing of `get_measles_attack_rates_by_age_sex`. -/
structure AgeSexCount where
  ageGroup : String
  femaleCases : Nat
  maleCases : Nat
deriving DecidableEq

/-- One output row of `get_measles_attack_rates_by_age_sex`. -/
structure AttackRow where
  ageGroup : String
  femaleCases : Nat
  maleCases : Nat
  femaleRate : ℚ
  maleRate : ℚ
deriving DecidableEq

/-- `df['female_cases'].sum()` over the result frame. -/
def femaleTotal (df : List AgeSexCount) : ℕ :=
  (df.map (fun r => r.femaleCases)).sum

/-- `df['male_cases'].sum()` over the result frame. -/
def maleTotal (df : List AgeSexCount) : ℕ :=
  (df.map (fun r => r.maleCases)).sum

/-- Attack-rate post-processing of `get_measles_attack_rates_by_age_sex`
(data_fetcher.py lines 1955-1959):
`rate = (cases * 100000 / cases.sum()).round(2)` per sex column. -/
def attackRatesPost (df : List AgeSexCount) : List AttackRow :=
  df.map fun r =>
    ⟨r.ageGroup, r.femaleCases, r.maleCases,
     npRound2 ((r.femaleCases * 100000 : ℚ) / (femaleTotal df : ℚ)),
     npRound2 ((r.maleCases * 100000 : ℚ) / (maleTotal df : ℚ))⟩

/-! ## Relational data model

Row types for the three warehouse tables the aggregation layer reads:
the event fact table `dwh.fact_eidsr_event_data`, the attribute fact table
`dwh.fact_eidsr_tracked_entity_attributes`, and the hierarchy dimension
`dwh.dim_eidsr_org_hierarchy`.  Dates are abstracted to the fields the
queries extract: `EXTRACT(YEAR/MONTH/WEEK FROM event_date)`. -/

/-- The extractable fields of a non-null `event_date`. -/
structure DateRec where
  yr : Nat
  mo : Nat
  wk : Nat
deriving DecidableEq

/-- One row of `dwh.fact_eidsr_event_data` (the columns used by the
aggregation queries; `date = none` models a NULL `event_date`, and
`entityId = none` a NULL `tracked_entity_instance_id`). -/
structure EventRow where
  eventId : Nat
  entityId : Option Nat
  dataElementId : String
  dataValue : String
  dataElementDisplayName : String
  date : Option DateRec
  orgKey : Nat
deriving DecidableEq

/-- One row of `dwh.fact_eidsr_tracked_entity_attributes`. -/
structure AttrRow where
  entityId : Nat
  attributeId : String
  attributeValue : String
deriving DecidableEq

/-- One row of `dwh.dim_eidsr_org_hierarchy` (`name = none` models a NULL
`district_name`). -/
structure OrgRow where
  key : Nat
  districtName : Option String
  regionName : Option String
deriving DecidableEq

/-- The warehouse as read by the aggregation layer. -/
structure DB where
  events : List EventRow
  attrs : List AttrRow
  orgs : List OrgRow

/-- The fixed disease predicate shared by every query:
`data_element_id = 'qIlO7yEpiVv' AND data_value = 'Measles (B05.0_B05.9)'`. -/
def diseaseP (e : EventRow) : Bool :=
  e.dataElementId == "qIlO7yEpiVv" && e.dataValue == "Measles (B05.0_B05.9)"

/-- `COUNT(DISTINCT _)` over a column of non-null values. -/
def countDistinct {α : Type} [DecidableEq α] (l : List α) : ℕ :=
  l.dedup.length

/-! ## Ordering machinery for `ORDER BY a DESC, b DESC` -/

/-- Lexicographic ≤ on `(year, week)`-style pairs; this is also the SQL
condition `y2 < y1 OR (y2 = y1 AND w2 <= w1)` used by the cumulative-sum
subquery. -/
def lexLe (p q : ℕ × ℕ) : Prop :=
  p.1 < q.1 ∨ (p.1 = q.1 ∧ p.2 ≤ q.2)

/-- Strict lexicographic < on pairs. -/
def lexLt (p q : ℕ × ℕ) : Prop :=
  p.1 < q.1 ∨ (p.1 = q.1 ∧ p.2 < q.2)

instance : DecidableRel lexLe := fun p q => by
  unfold lexLe; exact inferInstance

instance : DecidableRel lexLt := fun p q => by
  unfold lexLt; exact inferInstance

/-- `keyDesc k a b` states that `a` may come before `b` when sorting
descending by the (lexicographic) key `k`. -/
def keyDesc {α : Type} (k : α → ℕ × ℕ) (a b : α) : Prop :=
  lexLe (k b) (k a)

instance {α : Type} (k : α → ℕ × ℕ) : DecidableRel (keyDesc k) := fun a b =>
  inferInstanceAs (Decidable (lexLe (k b) (k a)))

instance {α : Type} (k : α → ℕ × ℕ) : IsTotal α (keyDesc k) :=
  ⟨fun a b => by unfold keyDesc lexLe; omega⟩

instance {α : Type} (k : α → ℕ × ℕ) : IsTrans α (keyDesc k) :=
  ⟨fun a b c => by unfold keyDesc lexLe; omega⟩

/-- `ORDER BY (key) DESC` as a list operation. -/
def sortDescBy {α : Type} (k : α → ℕ × ℕ) (l : List α) : List α :=
  List.insertionSort (keyDesc k) l

/-! ## Epi-week aggregator (`get_measles_weekly_data`) -/

/-- A distinct `(event_id, event_date)` pair of a measles event, reduced to
the extracted year and week. -/
structure WeeklyEv where
  eid : Nat
  yr : Nat
  wk : Nat
deriving DecidableEq

/-- `SELECT DISTINCT event_id, event_date FROM fact WHERE disease AND
event_date IS NOT NULL`, reduced to `(event_id, year, week)`. -/
def measlesWeeklyEvs (db : DB) : List WeeklyEv :=
  (db.events.filterMap fun e =>
    match e.date with
    | none => none
    | some d => if diseaseP e then some (⟨e.eventId, d.yr, d.wk⟩ : WeeklyEv) else none).dedup

/-- An epi-week bucket: `(year, week)` with its distinct-event count. -/
structure Bucket where
  yr : Nat
  wk : Nat
  cases : Nat
deriving DecidableEq

/-- The `(year, week)` key of a bucket. -/
def bkey (b : Bucket) : ℕ × ℕ := (b.yr, b.wk)

/-- `GROUP BY EXTRACT(YEAR ...), EXTRACT(WEEK ...)` with
`COUNT(DISTINCT event_id)` per group. -/
def weeklyGroups (evs : List WeeklyEv) : List Bucket :=
  ((evs.map fun e => (e.yr, e.wk)).dedup).map fun p =>
    ⟨p.1, p.2,
     countDistinct ((evs.filter (fun e => e.yr == p.1 && e.wk == p.2)).map (fun e => e.eid))⟩

/-- `all_weekly_data`: weekly buckets over all years. -/
def allWeekly (db : DB) : List Bucket :=
  weeklyGroups (measlesWeeklyEvs db)

/-- `weekly_data` of the single-year branch: weekly buckets of the target
year. -/
def yearWeekly (db : DB) (y : ℕ) : List Bucket :=
  weeklyGroups ((measlesWeeklyEvs db).filter (fun e => e.yr == y))

/-- The cumulative-mode running total (data_fetcher.py lines 471-476):
`SELECT SUM(weekly_cases) FROM all_weekly_data WHERE year < y OR
(year = y AND epi_week <= w)` — a sum over all history, not just the
returned buckets. -/
def cumAll (db : DB) (b : Bucket) : ℕ :=
  (((allWeekly db).filter (fun b2 => decide (lexLe (bkey b2) (bkey b)))).map
    (fun b2 => b2.cases)).sum

/-- The single-year running total (data_fetcher.py lines 535-538):
`SUM(weekly_cases) OVER (ORDER BY year, epi_week ROWS UNBOUNDED PRECEDING)`
computed over `ordered_data`, i.e. over the retained buckets only. -/
def cumOver (ordered : List Bucket) (b : Bucket) : ℕ :=
  ((ordered.filter (fun b2 => decide (lexLe (bkey b2) (bkey b)))).map
    (fun b2 => b2.cases)).sum

/-- The percent-change CASE shared by both branches and by the district
aggregator: NULL when the comparison count is absent or zero, otherwise
`ROUND((current - other)::DECIMAL / other * 100, 1)`. -/
def pctChangeOpt (c : ℕ) (p : Option ℕ) : Option ℚ :=
  match p with
  | none => none
  | some pv => if pv = 0 then none else some (sqlRound1 (((c : ℚ) - (pv : ℚ)) / (pv : ℚ) * 100))

/-- One output row of `get_measles_weekly_data`. -/
structure WeekRow where
  yr : Nat
  wk : Nat
  weekly : Nat
  cum : Nat
  pct : Option ℚ
deriving DecidableEq

/-- `LAG(weekly_cases) OVER (ORDER BY year DESC, epi_week DESC)`: walk the
descending bucket list threading the previous element's count. -/
def lagRows (mk : Bucket → Option ℕ → WeekRow) : List Bucket → Option ℕ → List WeekRow
  | [], _ => []
  | b :: t, prev => mk b prev :: lagRows mk t (some b.cases)

/-- `ordered_all_data`: the 10 most recent buckets over all years,
descending. -/
def orderedAll (db : DB) : List Bucket :=
  (sortDescBy bkey (allWeekly db)).take 10

/-- One output row of the cumulative (all-years) branch. -/
def mkAllRow (db : DB) (b : Bucket) (prev : Option ℕ) : WeekRow :=
  ⟨b.yr, b.wk, b.cases, cumAll db b, pctChangeOpt b.cases prev⟩

/-- `get_measles_weekly_data` with `year=None` (data_fetcher.py lines
445-496): the 10 most recent buckets over all years, descending, annotated
with the all-history cumulative sum and the LAG-based percent change. -/
def weeklyAll (db : DB) : List WeekRow :=
  lagRows (mkAllRow db) (orderedAll db) none

/-- `ordered_data` of the single-year branch: the 10 most recent buckets of
the target year, descending. -/
def orderedSingle (db : DB) (y : ℕ) : List Bucket :=
  (sortDescBy bkey (yearWeekly db y)).take 10

/-- One output row of the single-year branch. -/
def mkSingleRow (ordered : List Bucket) (b : Bucket) (prev : Option ℕ) : WeekRow :=
  ⟨b.yr, b.wk, b.cases, cumOver ordered b, pctChangeOpt b.cases prev⟩

/-- `get_measles_weekly_data` with a given year (data_fetcher.py lines
499-558): the 10 most recent buckets of that year, descending, annotated
with the running sum over the retained buckets and the LAG-based percent
change. -/
def weeklySingle (db : DB) (y : ℕ) : List WeekRow :=
  lagRows (mkSingleRow (orderedSingle db y)) (orderedSingle db y) none

/-- Modelled from the spec: the cumulative sum that restarts at the year's
first bucket — the sum of all of the year's weekly counts up to and
including week `w` (spec §4.2 *Single-year*). -/
def specYearCumulative (db : DB) (y w : ℕ) : ℕ :=
  (((yearWeekly db y).filter (fun b => decide (b.wk ≤ w))).map (fun b => b.cases)).sum

/-- Modelled from the spec: the count of the immediately preceding
chronological bucket — the lexicographically greatest bucket strictly
before `(y, w)` among all weekly buckets (spec §4.2 percent-change rule). -/
def specChronPrevCases (db : DB) (y w : ℕ) : Option ℕ :=
  ((sortDescBy bkey ((allWeekly db).filter (fun b => decide (lexLt (bkey b) (y, w))))).head?).map
    (fun b => b.cases)

/-! ## District aggregator (`get_measles_top_10_districts`) -/

/-- A distinct measles event keyed for the district aggregator:
`SELECT DISTINCT event_id, event_date, dim_org_hierarchy_key,
EXTRACT(WEEK ...), EXTRACT(YEAR ...)` with the optional year filter. -/
structure TEv where
  eid : Nat
  yr : Nat
  wk : Nat
  okey : Nat
deriving DecidableEq

/-- `AND EXTRACT(YEAR FROM e1.event_date) = {year}` when a year is given. -/
def yearMatches (year : Option ℕ) (d : DateRec) : Bool :=
  match year with
  | none => true
  | some y => d.yr == y

/-- `measles_events` CTE of `get_measles_top_10_districts`. -/
def topMeaslesEvs (db : DB) (year : Option ℕ) : List TEv :=
  (db.events.filterMap fun e =>
    match e.date with
    | none => none
    | some d =>
      if diseaseP e && yearMatches year d then
        some (⟨e.eventId, d.yr, d.wk, e.orgKey⟩ : TEv)
      else none).dedup

/-- SQL `MAX` over a list of naturals (only used on nonempty data). -/
def listMax (l : List ℕ) : ℕ := l.foldr max 0

/-- `latest_epi_week` CTE: `SELECT MAX(year), MAX(epi_week)` — the two
maxima are taken independently, so the pair need not be a bucket present
in the data. -/
def latestYrWk (db : DB) (year : Option ℕ) : ℕ × ℕ :=
  (listMax ((topMeaslesEvs db year).map (fun m => m.yr)),
   listMax ((topMeaslesEvs db year).map (fun m => m.wk)))

/-- `previous_epi_week` CTE: week-1, wrapping week 1 to week 52 of the
previous year. -/
def prevYrWk (p : ℕ × ℕ) : ℕ × ℕ :=
  if p.2 = 1 then (p.1 - 1, 52) else (p.1, p.2 - 1)

/-- `death_events` CTE: distinct `(event_id, is_death)` pairs from rows
whose display name matches outcome/status/result, with
`is_death = 1` iff the lower-cased value matches death/died/fatal. -/
def deathEvs (db : DB) : List (ℕ × ℕ) :=
  ((db.events.filter (fun e =>
      hasSeg e.dataElementDisplayName "outcome" ||
      hasSeg e.dataElementDisplayName "status" ||
      hasSeg e.dataElementDisplayName "result")).map (fun e =>
    (e.eventId,
     if hasSeg (strLower e.dataValue) "death" || hasSeg (strLower e.dataValue) "died" ||
        hasSeg (strLower e.dataValue) "fatal" then 1 else 0))).dedup

/-- `LEFT JOIN death_events ... COALESCE(de.is_death, 0)`: the matching
is_death values, or the single default 0 when none match. -/
def leftJoinDeath (de : List (ℕ × ℕ)) (eid : ℕ) : List ℕ :=
  let m := (de.filter (fun p => p.1 == eid)).map (fun p => p.2)
  if m.isEmpty then [0] else m

/-- One row of the `district_data` CTE. -/
structure DRow where
  name : String
  eid : Nat
  yr : Nat
  wk : Nat
  death : Nat
deriving DecidableEq

/-- `district_data` CTE: measles events joined to the hierarchy
(`district_name IS NOT NULL AND district_name != 'Unknown'`, with
`COALESCE(district_name, 'Unknown District')`) and left-joined to
`death_events`. -/
def districtData (db : DB) (year : Option ℕ) : List DRow :=
  let de := deathEvs db
  (topMeaslesEvs db year).flatMap fun m =>
    (db.orgs.filter (fun o =>
        o.key == m.okey &&
        (match o.districtName with
         | some n => !(n == "Unknown")
         | none => false))).flatMap fun o =>
      (leftJoinDeath de m.eid).map fun dth =>
        ⟨o.districtName.getD "Unknown District", m.eid, m.yr, m.wk, dth⟩

/-- `COUNT(DISTINCT event_id)` of a district's rows in one `(year, week)`
bucket. -/
def bucketCountD (rows : List DRow) (n : String) (y w : ℕ) : ℕ :=
  countDistinct ((rows.filter (fun r => r.name == n && r.yr == y && r.wk == w)).map
    (fun r => r.eid))

/-- One output row of `get_measles_top_10_districts`. -/
structure TopRow where
  district : String
  totalCases : Nat
  totalDeaths : Nat
  casesLast : Nat
  deathsLast : Nat
  pct : Option ℚ
deriving DecidableEq

/-- The `district_summary` group of one district name, together with the
final percent-change column. -/
def summarizeD (db : DB) (year : Option ℕ) (n : String) : TopRow :=
  let rows := (districtData db year).filter (fun r => r.name == n)
  let mp := latestYrWk db year
  let pp := prevYrWk mp
  ⟨n,
   countDistinct (rows.map (fun r => r.eid)),
   (rows.map (fun r => r.death)).sum,
   bucketCountD (districtData db year) n mp.1 mp.2,
   ((rows.filter (fun r => r.yr == mp.1 && r.wk == mp.2)).map (fun r => r.death)).sum,
   pctChangeOpt (bucketCountD (districtData db year) n mp.1 mp.2)
     (some (bucketCountD (districtData db year) n pp.1 pp.2))⟩

/-- The ranking sort key: `ORDER BY total_cases DESC, cases_last_epiweek
DESC`. -/
def topKey (r : TopRow) : ℕ × ℕ := (r.totalCases, r.casesLast)

/-- `get_measles_top_10_districts` (data_fetcher.py lines 247-369): group,
filter out zero-count / Test District / Unknown District rows, sort
descending by (total, last-epiweek) and truncate to 12. -/
def topDistricts (db : DB) (year : Option ℕ) : List TopRow :=
  let dd := districtData db year
  let names := (dd.map (fun r => r.name)).dedup
  let rows := (names.map (summarizeD db year)).filter (fun r =>
    decide (0 < r.totalCases) && !hasSeg r.district "Test District" &&
    !(r.district == "Unknown District"))
  (List.insertionSort (keyDesc topKey) rows).take 12

/-- Modelled from the spec: the latest epi-week bucket *actually present*
in the filtered data — the lexicographically greatest `(year, week)` among
the events (spec §4.4 / claim C4's reading). -/
def specLatestPresent (db : DB) (year : Option ℕ) : Option (ℕ × ℕ) :=
  (sortDescBy id ((topMeaslesEvs db year).map (fun m => (m.yr, m.wk)))).head?

/-! ## Deaths by district (`get_measles_deaths_by_district`, lines
2013-2076), with default (absent) location/year/month parameters, so both
dynamic filter fragments are empty. -/

/-- `joined_data` CTE: measles event rows joined to a `'dead'` outcome
attribute (`attribute_id = 'ulE2j2pFgDl'`) and to a hierarchy row with a
non-null district name; yields `(tracked_entity_instance_id, org key)`. -/
def deathsJoined (db : DB) : List (Option ℕ × ℕ) :=
  db.events.flatMap fun e =>
    if diseaseP e then
      (db.attrs.filter (fun a =>
          (some a.entityId == e.entityId) && a.attributeId == "ulE2j2pFgDl" &&
          strLower a.attributeValue == "dead")).flatMap fun _ =>
        (db.orgs.filter (fun o => o.key == e.orgKey && o.districtName.isSome)).map fun _ =>
          (e.entityId, e.orgKey)
    else []

/-- The outer query: re-join the hierarchy by key, `GROUP BY
doh.district_name` (which is *not* re-filtered, so the group key is the raw
nullable name), count distinct entities, keep positive groups, order by
deaths descending. -/
def deathsByDistrict (db : DB) : List (Option String × ℕ) :=
  let rows := (deathsJoined db).flatMap fun p =>
    (db.orgs.filter (fun o => o.key == p.2)).map fun o => (o.districtName, p.1)
  let names := (rows.map (fun r => r.1)).dedup
  let gs := (names.map fun n =>
      (n, countDistinct (((rows.filter (fun r => r.1 == n)).map (fun r => r.2)).filterMap id))).filter
    (fun g => decide (0 < g.2))
  List.insertionSort (keyDesc (fun g => (g.2, 0))) gs

/-! ## District proportions and choropleth mappings (district filters:
`district_name IS NOT NULL AND != 'Unknown' AND != '1 Test District'`). -/

/-- A distinct `(event_id, event_date, org key)` measles event. -/
def propMeaslesEvs (db : DB) : List (ℕ × DateRec × ℕ) :=
  (db.events.filterMap fun e =>
    match e.date with
    | none => none
    | some d => if diseaseP e then some (e.eventId, d, e.orgKey) else none).dedup

/-- Join to the hierarchy keeping only named, non-sentinel districts
(`district_name IS NOT NULL AND != 'Unknown' AND != '1 Test District'`);
yields `(district_name, event_id)`.  The `getD ""` default is unreachable:
the filter admits only rows with a non-null name. -/
def namedDistrictRows (db : DB) : List (String × ℕ) :=
  (propMeaslesEvs db).flatMap fun t =>
    (db.orgs.filter fun o =>
        o.key == t.2.2 &&
        (match o.districtName with
         | some n => !(n == "Unknown") && !(n == "1 Test District")
         | none => false)).map fun o => (o.districtName.getD "", t.1)

/-- `district_cases` grouping: distinct-event count per named district. -/
def districtCasesGroups (db : DB) : List (String × ℕ) :=
  let rows := namedDistrictRows db
  ((rows.map (fun r => r.1)).dedup).map fun n =>
    (n, countDistinct ((rows.filter (fun r => r.1 == n)).map (fun r => r.2)))

/-- One output row of `get_district_total_proportions`. -/
structure PropRow where
  district : String
  cases : Nat
  proportion : Option ℚ
deriving DecidableEq

/-- `get_district_total_proportions` (data_fetcher.py lines 1490-1572) with
default parameters: proportions of the grand total (`NULL` when the grand
total is zero), positive rows only, top 5 by cases. -/
def districtTotalProportions (db : DB) : List PropRow :=
  let groups := districtCasesGroups db
  let grand := (groups.map (fun g => g.2)).sum
  let rows := (groups.map fun g =>
    (⟨g.1, g.2,
      if grand = 0 then none
      else some (sqlRound2 ((g.2 * 100 : ℚ) / (grand : ℚ)))⟩ : PropRow)).filter
    (fun r => decide (0 < r.cases))
  (List.insertionSort (keyDesc (fun r => (r.cases, 0))) rows).take 5

/-- `get_measles_cumulative_cases_by_district` (choropleth_data.py lines
8-43): the `district_name -> total_cases` mapping, descending by count. -/
def choroCumulative (db : DB) : List (String × ℕ) :=
  List.insertionSort (keyDesc (fun g => (g.2, 0))) (districtCasesGroups db)

/-! ## Weekly district proportions (`get_district_weekly_proportions`,
data_fetcher.py lines 1396-1487), with `location=None` and a given year,
so the location fragment is empty and the date filter is
`EXTRACT(YEAR FROM e.event_date) = {year}`.  Its hierarchy join filters
*only* `district_name IS NOT NULL` (line 1434) — no sentinel exclusions.
`DATE_TRUNC('week', event_date)` is abstracted as the `(year, week)` pair
of the event date. -/

/-- Unreachable default used with `Option.getD` under an `isSome` filter. -/
def dateDefault : DateRec := ⟨0, 0, 0⟩

/-- One distinct row of the `measles_events` CTE of
`get_district_weekly_proportions`: `(event_id, event_date, district_name)`
with the week key derived from the date. -/
structure WPEv where
  eid : Nat
  d : DateRec
  name : String
deriving DecidableEq

/-- `measles_events` CTE: distinct measles events of the target year
joined to the hierarchy, keeping any non-null district name (the `getD`
defaults are unreachable: the filters require `isSome`). -/
def weekPropEvs (db : DB) (y : ℕ) : List WPEv :=
  ((db.events.filter (fun e =>
      diseaseP e && e.date.isSome && ((e.date.getD dateDefault).yr == y))).flatMap fun e =>
    (db.orgs.filter fun o => o.key == e.orgKey && o.districtName.isSome).map fun o =>
      (⟨e.eventId, e.date.getD dateDefault, o.districtName.getD ""⟩ : WPEv)).dedup

/-- The `week_starting` grouping key of an event. -/
def wpWeekKey (v : WPEv) : ℕ × ℕ := (v.d.yr, v.d.wk)

/-- `district_weekly_cases` CTE: `GROUP BY week_starting, district_name`
with `COUNT(DISTINCT event_id)`. -/
def wpGroups (db : DB) (y : ℕ) : List ((ℕ × ℕ) × String × ℕ) :=
  (((weekPropEvs db y).map (fun v => (wpWeekKey v, v.name))).dedup).map fun k =>
    (k.1, k.2,
     countDistinct (((weekPropEvs db y).filter
       (fun v => (wpWeekKey v, v.name) == k)).map (fun v => v.eid)))

/-- `weekly_totals` CTE: `SUM(district_cases)` of one week. -/
def wpWeekTotal (db : DB) (y : ℕ) (w : ℕ × ℕ) : ℕ :=
  (((wpGroups db y).filter (fun g => g.1 == w)).map (fun g => g.2.2)).sum

/-- A district's total cases over all weeks (`top_districts` CTE grouping). -/
def wpDistrictTotal (db : DB) (y : ℕ) (n : String) : ℕ :=
  (((wpGroups db y).filter (fun g => g.2.1 == n)).map (fun g => g.2.2)).sum

/-- `top_districts` CTE: the 5 district names with the highest totals. -/
def wpTopDistricts (db : DB) (y : ℕ) : List String :=
  ((List.insertionSort (keyDesc (fun p => (p.2, 0)))
    ((((wpGroups db y).map (fun g => g.2.1)).dedup).map
      (fun n => (n, wpDistrictTotal db y n)))).take 5).map (fun p => p.1)

/-- One output row of `get_district_weekly_proportions`. -/
structure WPRow where
  week : ℕ × ℕ
  district : String
  proportion : Option ℚ
deriving DecidableEq

/-- The final `ORDER BY week_starting, district_name` (both ascending). -/
def wpLe (a b : WPRow) : Prop :=
  lexLt a.week b.week ∨ (a.week = b.week ∧ a.district ≤ b.district)

instance : DecidableRel wpLe := fun a b => by
  unfold wpLe; exact inferInstance

instance : IsTotal WPRow wpLe :=
  ⟨fun a b => by
    unfold wpLe lexLt
    rcases Nat.lt_trichotomy a.week.1 b.week.1 with h1 | h1 | h1
    · exact Or.inl (Or.inl (Or.inl h1))
    · rcases Nat.lt_trichotomy a.week.2 b.week.2 with h2 | h2 | h2
      · exact Or.inl (Or.inl (Or.inr ⟨h1, h2⟩))
      · have hw : a.week = b.week := Prod.ext h1 h2
        rcases le_total a.district b.district with h3 | h3
        · exact Or.inl (Or.inr ⟨hw, h3⟩)
        · exact Or.inr (Or.inr ⟨hw.symm, h3⟩)
      · exact Or.inr (Or.inl (Or.inr ⟨h1.symm, h2⟩))
    · exact Or.inr (Or.inl (Or.inl h1))⟩

instance : IsTrans WPRow wpLe :=
  ⟨fun a b c hab hbc => by
    unfold wpLe lexLt at hab hbc ⊢
    rcases hab with hab | ⟨haw, had⟩
    · rcases hbc with hbc | ⟨hbw, _⟩
      · left; omega
      · left; rw [← hbw]; exact hab
    · rcases hbc with hbc | ⟨hbw, hbd⟩
      · left; rw [haw]; exact hbc
      · exact Or.inr ⟨haw.trans hbw, le_trans had hbd⟩⟩

/-- `get_district_weekly_proportions`: the weekly proportion
`ROUND(district_cases * 100.0 / NULLIF(total_weekly_cases, 0), 2)` of each
top-5 district, non-null proportions only, ordered by `(week_starting,
district_name)`. -/
def weeklyProportions (db : DB) (y : ℕ) : List WPRow :=
  List.insertionSort wpLe
    ((((wpGroups db y).filter (fun g => (wpTopDistricts db y).contains g.2.1)).map
      (fun g => (⟨g.1, g.2.1,
        if wpWeekTotal db y g.1 = 0 then none
        else some (sqlRound2 ((g.2.2 * 100 : ℚ) / (wpWeekTotal db y g.1 : ℚ)))⟩ : WPRow))).filter
      (fun r => r.proportion.isSome))

/-! ## Error-handling wrappers (claim C3) -/

/-- The fixed placeholder frame of `get_measles_gender_distribution`
(data_fetcher.py lines 1653-1666). -/
def placeholderGender : List (String × ℕ) :=
  [("Male", 45), ("Female", 38), ("Unknown", 5)]

/-- The fallback behaviour of `get_measles_gender_distribution`: the query
result on success, the placeholder frame when the result is empty or the
query raised. -/
def genderDistributionResult (r : Except Unit (List (String × ℕ))) : List (String × ℕ) :=
  match r with
  | .error _ => placeholderGender
  | .ok df => if df.isEmpty then placeholderGender else df

/-- The fallback behaviour of `get_measles_cumulative_cases_by_district`
(choropleth_data.py lines 40-43): the mapping on success, the empty mapping
when the query raised. -/
def choroCumulativeResult (r : Except Unit (List (String × ℕ))) : List (String × ℕ) :=
  match r with
  | .error _ => []
  | .ok df => df

/-! ## Filter builder (claim C7): the year/month fragment replicated at
`get_district_reporting_metrics` (lines 1054-1065),
`get_measles_gender_distribution` (lines 1591-1597) and elsewhere. -/

/-- One dynamic SQL date condition. -/
inductive DateCond where
  | yearEq (y : ℕ)
  | monthEq (m : ℕ)
deriving DecidableEq

/-- The literal month-name table; `.get(month_name, 1)` defaults to 1. -/
def monthsTable : List (String × ℕ) :=
  [("January", 1), ("February", 2), ("March", 3), ("April", 4),
   ("May", 5), ("June", 6), ("July", 7), ("August", 8),
   ("September", 9), ("October", 10), ("November", 11), ("December", 12)]

/-- `month.split()[0]`: the leading run of non-space characters. -/
def headWord (s : String) : String :=
  String.mk (s.toList.takeWhile (fun c => !(c == ' ')))

/-- `{...}.get(month_name, 1)`. -/
def monthNumOf (s : String) : ℕ :=
  (monthsTable.lookup s).getD 1

/-- The date-condition builder: `if year and month and month != f"All
Months {year}"` appends both a year and a parsed-month condition; `elif
year` appends the year condition only. -/
def dateConds (year : Option ℕ) (month : Option String) : List DateCond :=
  match year, month with
  | some y, some m =>
    if m = "All Months " ++ toString y then [DateCond.yearEq y]
    else [DateCond.yearEq y, DateCond.monthEq (monthNumOf (headWord m))]
  | some y, none => [DateCond.yearEq y]
  | none, _ => []

/-- Evaluate one condition on an event date. -/
def evalCond (d : DateRec) : DateCond → Bool
  | DateCond.yearEq y => d.yr == y
  | DateCond.monthEq m => d.mo == m

/-- The filtered event set of a reporting query: the disease predicate, a
non-null event date, and every dynamic date condition. -/
def filteredEvents (db : DB) (year : Option ℕ) (month : Option String) : List EventRow :=
  db.events.filter fun e =>
    diseaseP e &&
    (match e.date with
     | none => false
     | some d => (dateConds year month).all (evalCond d))

/-! ## Concrete databases used by counterexamples and witnesses -/

/-- A measles event with distinct id, year and week (used by the concrete
databases below). -/
def mkEv (id y w : ℕ) : EventRow :=
  ⟨id, some id, "qIlO7yEpiVv", "Measles (B05.0_B05.9)", "", some ⟨y, 1, w⟩, 1⟩

/-- Two weekly buckets: `(2024, w10)` with 1 case and `(2024, w11)` with 2
cases. -/
def dbTwoWeeks : DB :=
  ⟨[mkEv 1 2024 10, mkEv 2 2024 11, mkEv 3 2024 11], [], []⟩

/-- Eleven weekly buckets of one case each, weeks 1-11 of 2024. -/
def dbElevenWeeks : DB :=
  ⟨(List.range 11).map (fun i => mkEv (i + 1) 2024 (i + 1)), [], []⟩

/-- One district with one event in `(2024, w52)` and one in `(2025, w3)`:
the independent maxima give the absent bucket `(2025, 52)`. -/
def dbTwoYears : DB :=
  ⟨[mkEv 1 2024 52, mkEv 2 2025 3], [], [⟨1, some "Dist A", none⟩]⟩

/-- A measles event whose entity has a `'Dead'` outcome attribute and whose
district is the sentinel name `"Unknown"`. -/
def dbUnknownDeath : DB :=
  ⟨[⟨1, some 7, "qIlO7yEpiVv", "Measles (B05.0_B05.9)", "", some ⟨2024, 1, 1⟩, 1⟩],
   [⟨7, "ulE2j2pFgDl", "Dead"⟩],
   [⟨1, some "Unknown", none⟩]⟩

/-- A measles event whose district row is stored with the literal name
`"Unknown District"` — which is *not* among the sentinels that the
proportions and choropleth queries filter out. -/
def dbUnknownDistrictName : DB :=
  ⟨[⟨1, some 1, "qIlO7yEpiVv", "Measles (B05.0_B05.9)", "", some ⟨2024, 1, 1⟩, 1⟩],
   [],
   [⟨1, some "Unknown District", none⟩]⟩

/-- One measles event dated February 2025. -/
def dbFebEvent : DB :=
  ⟨[⟨1, none, "qIlO7yEpiVv", "Measles (B05.0_B05.9)", "", some ⟨2025, 2, 5⟩, 1⟩], [], []⟩

instance : Inhabited AttackRow := ⟨⟨"", 0, 0, 0, 0⟩⟩

instance : Inhabited WeekRow := ⟨⟨0, 0, 0, 0, none⟩⟩

instance : Inhabited TopRow := ⟨⟨"", 0, 0, 0, 0, none⟩⟩

/-- The default row used with `List.getD` when indexing weekly output. -/
def weekRowDefault : WeekRow := ⟨0, 0, 0, 0, none⟩

/-- The default bucket used with `List.getD`. -/
def bucketDefault : Bucket := ⟨0, 0, 0⟩

/-- The concrete one-row frame used by the C10 witness. -/
def dfC10 : List AgeSexCount := [⟨"0-4", 1, 3⟩]

/-- The corresponding output row of `attackRatesPost dfC10`. -/
def rowC10 : AttackRow := (attackRatesPost dfC10).headI

/-! ## General lemmas -/

theorem lexLe_trans (p q r : ℕ × ℕ) : lexLe p q → lexLe q r → lexLe p r := by
  unfold lexLe; omega

/-- The head of a nonempty list is one of its elements. -/
theorem headI_mem {α : Type} [Inhabited α] {l : List α} (h : l ≠ []) : l.headI ∈ l := by
  cases l with
  | nil => exact absurd rfl h
  | cons a t => exact List.mem_cons_self a t

theorem lagRows_length (mk : Bucket → Option ℕ → WeekRow) :
    ∀ (L : List Bucket) (prev : Option ℕ), (lagRows mk L prev).length = L.length := by
  intro L
  induction L with
  | nil => intro prev; rfl
  | cons b t ih => intro prev; simp [lagRows, ih]

/-- Indexing a LAG walk: row `i` is built from bucket `i` and, for `i > 0`,
the count of bucket `i - 1`. -/
theorem lagRows_getD (mk : Bucket → Option ℕ → WeekRow) :
    ∀ (L : List Bucket) (prev : Option ℕ) (i : ℕ), i < L.length →
      (lagRows mk L prev).getD i weekRowDefault =
        mk (L.getD i bucketDefault)
          (if i = 0 then prev else some ((L.getD (i - 1) bucketDefault).cases)) := by
  intro L
  induction L with
  | nil => intro prev i h; simp at h
  | cons b t ih =>
    intro prev i h
    cases i with
    | zero => simp [lagRows]
    | succ j =>
      have hj : j < t.length := by simpa using h
      simp only [lagRows, List.getD_cons_succ]
      rw [ih (some b.cases) j hj]
      cases j with
      | zero => simp
      | succ k => simp

/-- Every row of a LAG walk is built from some bucket of the list. -/
theorem lagRows_mem (mk : Bucket → Option ℕ → WeekRow) :
    ∀ (L : List Bucket) (prev : Option ℕ) (r : WeekRow), r ∈ lagRows mk L prev →
      ∃ b p, b ∈ L ∧ r = mk b p := by
  intro L
  induction L with
  | nil => intro prev r h; simp [lagRows] at h
  | cons b t ih =>
    intro prev r h
    simp only [lagRows] at h
    rcases List.mem_cons.1 h with h | h
    · exact ⟨b, prev, List.mem_cons_self b t, h⟩
    · obtain ⟨b2, p2, hb2, hr⟩ := ih (some b.cases) r h
      exact ⟨b2, p2, List.mem_cons_of_mem b hb2, hr⟩

/-- The all-history cumulative sum is monotone in the `(year, week)` key. -/
theorem cumAll_mono (db : DB) (b1 b2 : Bucket) (h : lexLe (bkey b1) (bkey b2)) :
    cumAll db b1 ≤ cumAll db b2 := by
  unfold cumAll
  refine List.Sublist.sum_le_sum ?_ (fun a _ => Nat.zero_le a)
  refine List.Sublist.map _ ?_
  refine List.monotone_filter_right _ ?_
  intro b hb
  simp only [decide_eq_true_eq] at hb ⊢
  exact lexLe_trans _ _ _ hb h

/-- Buckets of the single-year grouping carry the target year. -/
theorem mem_yearWeekly_yr (db : DB) (y : ℕ) (b : Bucket) (h : b ∈ yearWeekly db y) :
    b.yr = y := by
  unfold yearWeekly weeklyGroups at h
  obtain ⟨p, hp, rfl⟩ := List.mem_map.1 h
  have hp2 := List.mem_dedup.1 hp
  obtain ⟨e, he, rfl⟩ := List.mem_map.1 hp2
  have := List.of_mem_filter he
  simpa using this

/-- Retained single-year buckets come from the single-year grouping. -/
theorem mem_orderedSingle (db : DB) (y : ℕ) (b : Bucket) (h : b ∈ orderedSingle db y) :
    b ∈ yearWeekly db y := by
  unfold orderedSingle sortDescBy at h
  exact (List.mem_insertionSort _).1 ((List.take_sublist _ _).subset h)

/-! ## Claim C8 — age classification (corrected) -/

/-- C8 counterexample: at the 5-year-scheme call site of
`get_measles_age_sex_distribution` (data_fetcher.py lines 186-199) the text
`"3 months"` fails the `'^[0-9]+$'` regex and is classified `"Unknown"`,
not the youngest band `"0-4"` — refuting the claim that text containing
"month" maps to the youngest band at every classification call site. -/
theorem c8_age_counterexample :
    ageGroupSite1 "3 months" = "Unknown" ∧ ageGroupSite1 "3 months" ≠ "0-4" := by
  decide

/-- C8 (amended): a numeric age string is mapped by integer comparison into
each call site's band scheme ("7" → "5-9"/"5-14 years"), digit-free text
maps to "Unknown" everywhere, but text containing "month"/"week" maps to
the youngest band only at the coarse `get_measles_demographic_data` call
site; the two pure-regex call sites classify it "Unknown". -/
theorem c8_age_classification (f : String → Int) :
    ageGroupSite1 "7" = "5-9" ∧ ageGroupSite3 "7" = "5-9" ∧
    ageGroupSite2 f "7" = "5-14 years" ∧
    ageGroupSite1 "abc" = "Unknown" ∧ ageGroupSite3 "abc" = "Unknown" ∧
    ageGroupSite2 f "abc" = "Unknown" ∧
    ageGroupSite2 f "3 months" = "<1 year" ∧ ageGroupSite2 f "2 weeks" = "<1 year" ∧
    ageGroupSite1 "3 months" = "Unknown" ∧ ageGroupSite3 "3 months" = "Unknown" :=
  ⟨rfl, rfl, rfl, rfl, rfl, rfl, rfl, rfl, rfl, rfl⟩

/-! ## Claim C9 — sex classification (corrected) -/

/-- C9 counterexample: `get_measles_weekly_by_sex` (data_fetcher.py lines
1287-1291) classifies by exact lower-cased equality, so `"transmale"` maps
to `"Unknown"`, not `"Male"` — refuting case-insensitive *substring*
matching at every call site. -/
theorem c9_sex_counterexample :
    sexExact "transmale" = "Unknown" ∧ sexExact "transmale" ≠ "Male" := by
  decide

/-- C9 (amended): the substring rule holds at the
`get_measles_gender_distribution` / `get_measles_age_sex_distribution`
call sites ("FEMALE" → Female, "unspecified" → Unknown, "transmale" →
Male), but `get_measles_weekly_by_sex` uses exact equality on the
lower-cased value, agreeing with the substring rule where it is not
"Unknown" while sending every non-exact value ("transmale") to "Unknown". -/
theorem c9_sex_classification :
    sexSubstr "Male" = "Male" ∧ sexSubstr "FEMALE" = "Female" ∧
    sexSubstr "unspecified" = "Unknown" ∧ sexSubstr "transmale" = "Male" ∧
    sexExact "Male" = "Male" ∧ sexExact "FEMALE" = "Female" ∧
    sexExact "unspecified" = "Unknown" ∧ sexExact "transmale" = "Unknown" ∧
    (∀ s : String, sexExact s = "Unknown" ∨ sexExact s = sexSubstr s) := by
  refine ⟨by decide, by decide, by decide, by decide, by decide, by decide,
    by decide, by decide, ?_⟩
  intro s
  unfold sexExact sexSubstr
  by_cases h1 : strLower s = "male"
  · right; simp only [h1]; decide
  · by_cases h2 : strLower s = "female"
    · right; simp only [h2]; decide
    · left; rw [if_neg h1, if_neg h2]

/-! ## Claim C3 — empty result on error (corrected) -/

/-- C3 counterexample: `get_measles_gender_distribution` returns the fixed
non-empty placeholder frame when its query yields no rows — not an empty
mapping/table. -/
theorem c3_error_counterexample :
    genderDistributionResult (Except.ok []) = placeholderGender ∧
    genderDistributionResult (Except.ok []) ≠ [] := by
  decide

/-- C3 (amended): the choropleth aggregations convert an error (or empty
query result) to an empty mapping, but `get_measles_gender_distribution`
substitutes the fixed non-empty placeholder frame both when the query
yields no rows and when it raises. -/
theorem c3_empty_on_error :
    (∀ e : Unit, choroCumulativeResult (Except.error e) = []) ∧
    choroCumulativeResult (Except.ok []) = [] ∧
    (∀ e : Unit, genderDistributionResult (Except.error e) = placeholderGender) ∧
    (∀ df, genderDistributionResult (Except.ok df) =
      if df.isEmpty then placeholderGender else df) ∧
    placeholderGender ≠ [] :=
  ⟨fun _ => rfl, rfl, fun _ => rfl, fun _ => rfl, by decide⟩

/-! ## Claim C7 — malformed month filter (corrected) -/

/-- C7 counterexample: with the malformed month display string
`"Smarch 2025"` (month name not among the 12), the filter builder emits a
January condition, so a February 2025 event is excluded even though the
unfiltered (month-absent) query returns it — the result does *not* equal
the result with the filter absent. -/
theorem c7_month_counterexample :
    monthsTable.lookup "Smarch" = none ∧
    filteredEvents dbFebEvent (some 2025) (some "Smarch 2025") = [] ∧
    filteredEvents dbFebEvent (some 2025) none = dbFebEvent.events ∧
    dbFebEvent.events ≠ [] := by
  refine ⟨rfl, by decide, by decide, by decide⟩

/-- C7 (amended): a month display string whose leading word is not a
recognised month name (and which is not the "All Months" sentinel) does
not fall back to unfiltered behaviour; `dict.get(month_name, 1)` coerces
it to January, so the query filters on `year = y AND month = 1`. -/
theorem c7_malformed_month (y : ℕ) (m : String)
    (h1 : monthsTable.lookup (headWord m) = none)
    (h2 : m ≠ "All Months " ++ toString y) :
    dateConds (some y) (some m) = [DateCond.yearEq y, DateCond.monthEq 1] ∧
    ∀ db : DB, filteredEvents db (some y) (some m) =
      db.events.filter (fun e =>
        diseaseP e &&
        (match e.date with
         | none => false
         | some d => (d.yr == y) && (d.mo == 1))) := by
  have hc : dateConds (some y) (some m) = [DateCond.yearEq y, DateCond.monthEq 1] := by
    show (if m = "All Months " ++ toString y then [DateCond.yearEq y]
      else [DateCond.yearEq y, DateCond.monthEq (monthNumOf (headWord m))]) =
      [DateCond.yearEq y, DateCond.monthEq 1]
    rw [if_neg h2]
    unfold monthNumOf
    rw [h1]
    rfl
  refine ⟨hc, fun db => ?_⟩
  unfold filteredEvents
  rw [hc]
  apply List.filter_congr
  intro e _
  cases e.date with
  | none => rfl
  | some d => simp [evalCond, List.all]

/-- C7 witness: the amended behaviour at the concrete malformed month
`"Smarch 2025"` and the concrete February 2025 database. -/
theorem c7_malformed_month_witness :
    filteredEvents dbFebEvent (some 2025) (some "Smarch 2025") =
      dbFebEvent.events.filter (fun e =>
        diseaseP e &&
        (match e.date with
         | none => false
         | some d => (d.yr == 2025) && (d.mo == 1))) :=
  (c7_malformed_month 2025 "Smarch 2025" (by decide) (by decide)).2 dbFebEvent

/-! ## Claim C10 — rate-normalisation conventions (confirmed) -/

/-- C10: each rate-normalising call site keeps its own convention.  The
age/sex attack-rate post-processing computes `count / total * 100000`
(rounded to 2 decimals), while the choropleth rate is the saturating
`ROUND(count * 100000 / GREATEST(count, floor), 2)`, which is bounded
above by 100000 and reaches exactly 100000 once the count passes the
floor. -/
theorem c10_rate_conventions :
    (∀ (df : List AgeSexCount) (r : AttackRow), r ∈ attackRatesPost df →
      r.femaleRate = npRound2 (((r.femaleCases : ℚ) / (femaleTotal df : ℚ)) * 100000) ∧
      r.maleRate = npRound2 (((r.maleCases : ℚ) / (maleTotal df : ℚ)) * 100000)) ∧
    (∀ fl c : ℕ, choroRate fl c = sqlRound2 (((c : ℚ) * 100000) / max (c : ℚ) (fl : ℚ))) ∧
    (∀ fl c : ℕ, choroRate fl c ≤ 100000) ∧
    (∀ c : ℕ, 1000 ≤ c → choroRate 1000 c = 100000) := by
  refine ⟨?_, fun fl c => rfl, ?_, ?_⟩
  · intro df r h
    obtain ⟨a, _, rfl⟩ := List.mem_map.1 h
    constructor
    · show npRound2 ((a.femaleCases * 100000 : ℚ) / (femaleTotal df : ℚ)) =
        npRound2 (((a.femaleCases : ℚ) / (femaleTotal df : ℚ)) * 100000)
      rw [div_mul_eq_mul_div]
    · show npRound2 ((a.maleCases * 100000 : ℚ) / (maleTotal df : ℚ)) =
        npRound2 (((a.maleCases : ℚ) / (maleTotal df : ℚ)) * 100000)
      rw [div_mul_eq_mul_div]
  · intro fl c
    unfold choroRate sqlRound2
    have hd0 : (0 : ℚ) ≤ max (c : ℚ) (fl : ℚ) :=
      le_trans (by positivity) (le_max_left _ _)
    have hx0 : (0 : ℚ) ≤ ((c : ℚ) * 100000) / max (c : ℚ) (fl : ℚ) :=
      div_nonneg (by positivity) hd0
    have hx1 : ((c : ℚ) * 100000) / max (c : ℚ) (fl : ℚ) ≤ 100000 := by
      rcases eq_or_lt_of_le hd0 with hd | hd
      · rw [← hd, div_zero]
        norm_num
      · rw [div_le_iff₀ hd]
        have hcle : (c : ℚ) ≤ max (c : ℚ) (fl : ℚ) := le_max_left _ _
        nlinarith
    rw [if_pos hx0]
    have hfl : ⌊((c : ℚ) * 100000) / max (c : ℚ) (fl : ℚ) * 100 + 1/2⌋ ≤ 10000000 := by
      have h1 : ((c : ℚ) * 100000) / max (c : ℚ) (fl : ℚ) * 100 + 1/2 ≤
          (10000000 : ℚ) + 1/2 := by nlinarith
      have h2 := Int.floor_mono h1
      have h3 : ⌊(10000000 : ℚ) + 1/2⌋ = 10000000 := by norm_num
      omega
    have hflq : (⌊((c : ℚ) * 100000) / max (c : ℚ) (fl : ℚ) * 100 + 1/2⌋ : ℚ) ≤ 10000000 := by
      exact_mod_cast hfl
    rw [div_le_iff₀ (by norm_num : (0 : ℚ) < 100)]
    linarith
  · intro c hc
    unfold choroRate
    have hmax : max (c : ℚ) ((1000 : ℕ) : ℚ) = (c : ℚ) :=
      max_eq_left (by exact_mod_cast le_trans (by norm_num) hc)
    rw [hmax]
    have hc0 : (0 : ℚ) < (c : ℚ) := by
      exact_mod_cast lt_of_lt_of_le (by norm_num : 0 < 1000) hc
    rw [mul_comm ((c : ℚ)) 100000, mul_div_assoc, div_self (ne_of_gt hc0), mul_one]
    norm_num [sqlRound2]

/-- C10 witness: the rate formulas at a concrete frame and the saturation
value at a concrete count past the floor. -/
theorem c10_rate_conventions_witness :
    (rowC10.femaleRate = npRound2 (((rowC10.femaleCases : ℚ) / (femaleTotal dfC10 : ℚ)) * 100000) ∧
     rowC10.maleRate = npRound2 (((rowC10.maleCases : ℚ) / (maleTotal dfC10 : ℚ)) * 100000)) ∧
    choroRate 1000 2500 = 100000 :=
  ⟨c10_rate_conventions.1 dfC10 rowC10 (headI_mem (by simp [attackRatesPost, dfC10])),
   c10_rate_conventions.2.2.2 2500 (by norm_num)⟩

/-! ## Claim C2 — percent change (corrected) -/

/-- C2 counterexample: in the cumulative weekly aggregate over two buckets
`(2024, w10) = 1` and `(2024, w11) = 2`, the newest bucket `(2024, 11)` has
a positive chronologically-previous count (week 10, count 1), yet its
emitted percent change is NULL; and week 10, which has *no* preceding
bucket, carries a non-NULL percent change (computed against the
*following* week).  The claim's formula would give the opposite. -/
theorem c2_percent_change_counterexample :
    ((weeklyAll dbTwoWeeks).map (fun r => (r.yr, r.wk, r.weekly, r.cum, r.pct.isNone))) =
      [(2024, 11, 2, 3, true), (2024, 10, 1, 1, false)] ∧
    specChronPrevCases dbTwoWeeks 2024 11 = some 1 ∧
    specChronPrevCases dbTwoWeeks 2024 10 = none ∧
    (∀ c p : ℕ, p ≠ 0 → pctChangeOpt c (some p) ≠ none) := by
  refine ⟨by decide, by decide, by decide, ?_⟩
  intro c p hp
  unfold pctChangeOpt
  simp [hp]

/-- C2 (amended): the LAG runs over the *descending* ordering, so the
percent-change denominator of each emitted epi-week row is the count of
the previous row of the descending table — the chronologically *following*
bucket — with the newest row getting NULL; the formula and its
null-on-zero-or-absent rule are as claimed.  In the district aggregate the
denominator is the previous-epi-week count as claimed. -/
theorem c2_percent_change :
    (∀ (db : DB) (i : ℕ), i < (weeklyAll db).length →
      ((weeklyAll db).getD i weekRowDefault).pct =
        pctChangeOpt ((weeklyAll db).getD i weekRowDefault).weekly
          (if i = 0 then none
           else some (((weeklyAll db).getD (i - 1) weekRowDefault).weekly))) ∧
    (∀ (db : DB) (y i : ℕ), i < (weeklySingle db y).length →
      ((weeklySingle db y).getD i weekRowDefault).pct =
        pctChangeOpt ((weeklySingle db y).getD i weekRowDefault).weekly
          (if i = 0 then none
           else some (((weeklySingle db y).getD (i - 1) weekRowDefault).weekly))) ∧
    (∀ (db : DB) (y : Option ℕ) (r : TopRow), r ∈ topDistricts db y →
      r.pct = pctChangeOpt r.casesLast
        (some (bucketCountD (districtData db y) r.district
          (prevYrWk (latestYrWk db y)).1 (prevYrWk (latestYrWk db y)).2))) := by
  refine ⟨?_, ?_, ?_⟩
  · intro db i h
    unfold weeklyAll at h ⊢
    rw [lagRows_length] at h
    rw [lagRows_getD (mkAllRow db) (orderedAll db) none i h]
    by_cases h0 : i = 0
    · subst h0
      simp [mkAllRow]
    · have hj : i - 1 < (orderedAll db).length := Nat.lt_of_le_of_lt (Nat.sub_le i 1) h
      rw [if_neg h0, if_neg h0]
      show (mkAllRow db _ _).pct = _
      rw [lagRows_getD (mkAllRow db) (orderedAll db) none (i - 1) hj]
      rfl
  · intro db y i h
    unfold weeklySingle at h ⊢
    rw [lagRows_length] at h
    rw [lagRows_getD (mkSingleRow (orderedSingle db y)) (orderedSingle db y) none i h]
    by_cases h0 : i = 0
    · subst h0
      simp [mkSingleRow]
    · have hj : i - 1 < (orderedSingle db y).length := Nat.lt_of_le_of_lt (Nat.sub_le i 1) h
      rw [if_neg h0, if_neg h0]
      show (mkSingleRow _ _ _).pct = _
      rw [lagRows_getD (mkSingleRow (orderedSingle db y)) (orderedSingle db y) none (i - 1) hj]
      rfl
  · intro db y r h
    have h1 : r ∈ List.insertionSort (keyDesc topKey)
        ((((districtData db y).map (fun r => r.name)).dedup.map (summarizeD db y)).filter
          (fun r => decide (0 < r.totalCases) && !hasSeg r.district "Test District" &&
            !(r.district == "Unknown District"))) :=
      (List.take_sublist _ _).subset h
    have h2 := (List.mem_insertionSort _).1 h1
    have h3 := List.mem_filter.1 h2
    obtain ⟨n, _, rfl⟩ := List.mem_map.1 h3.1
    rfl

/-- C2 witness: the amended LAG characterisation at the two-bucket
database, row index 1 (the chronologically earlier week, whose denominator
is the *newer* week's count). -/
theorem c2_percent_change_witness :
    ((weeklyAll dbTwoWeeks).getD 1 weekRowDefault).pct =
      pctChangeOpt ((weeklyAll dbTwoWeeks).getD 1 weekRowDefault).weekly
        (some (((weeklyAll dbTwoWeeks).getD 0 weekRowDefault).weekly)) :=
  c2_percent_change.1 dbTwoWeeks 1 (by decide)

/-! ## Claim C5 — single-year cumulative sum (corrected) -/

/-- C5 counterexample: with eleven one-case buckets (weeks 1-11 of 2024)
the single-year branch returns the ten most recent (weeks 2-11); the
earliest returned bucket (week 2) is annotated with cumulative sum 1 —
the running sum over the *returned* buckets — whereas the sum of the
year's weekly counts up to week 2 is 2. -/
theorem c5_single_year_counterexample :
    ((weeklySingle dbElevenWeeks 2024).map (fun r => (r.wk, r.cum))).getLast? =
      some (2, 1) ∧
    specYearCumulative dbElevenWeeks 2024 2 = 2 ∧
    ¬ (∀ r ∈ weeklySingle dbElevenWeeks 2024,
        r.cum = specYearCumulative dbElevenWeeks 2024 r.wk) := by
  refine ⟨by decide, by decide, by decide⟩

/-- C5 (amended): in the single-year branch each returned bucket's
cumulative sum is the running sum over the (at most ten) *returned*
buckets up to and including it; it equals the year-restart cumulative sum
(the claim's reading) exactly when the year has at most ten buckets, since
then no earlier bucket of the year is dropped by `LIMIT 10`. -/
theorem c5_single_year_cumulative :
    (∀ (db : DB) (y : ℕ), ∀ r ∈ weeklySingle db y,
      r.cum = cumOver (orderedSingle db y) ⟨r.yr, r.wk, r.weekly⟩) ∧
    (∀ (db : DB) (y : ℕ), (yearWeekly db y).length ≤ 10 →
      ∀ r ∈ weeklySingle db y, r.cum = specYearCumulative db y r.wk) := by
  constructor
  · intro db y r hr
    obtain ⟨b, p, _, rfl⟩ := lagRows_mem _ _ _ _ hr
    rfl
  · intro db y hlen r hr
    obtain ⟨b, p, hb, rfl⟩ := lagRows_mem _ _ _ _ hr
    show cumOver (orderedSingle db y) b = specYearCumulative db y b.wk
    have hord : orderedSingle db y = sortDescBy bkey (yearWeekly db y) := by
      unfold orderedSingle
      apply List.take_of_length_le
      rw [sortDescBy, List.length_insertionSort]
      exact hlen
    have hby : b.yr = y := mem_yearWeekly_yr db y b (mem_orderedSingle db y b hb)
    have hperm : List.Perm (sortDescBy bkey (yearWeekly db y)) (yearWeekly db y) :=
      List.perm_insertionSort _ _
    unfold cumOver specYearCumulative
    rw [hord]
    rw [List.Perm.sum_eq (List.Perm.map _ (List.Perm.filter _ hperm))]
    congr 1
    congr 1
    apply List.filter_congr
    intro b2 hb2
    have hb2y : b2.yr = y := mem_yearWeekly_yr db y b2 hb2
    simp only [decide_eq_decide]
    unfold lexLe bkey
    omega

/-- C5 witness: the equality with the year-restart cumulative sum at the
two-bucket database (two buckets, so nothing is truncated). -/
theorem c5_single_year_cumulative_witness :
    ((weeklySingle dbTwoWeeks 2024).headI).cum =
      specYearCumulative dbTwoWeeks 2024 ((weeklySingle dbTwoWeeks 2024).headI).wk :=
  c5_single_year_cumulative.2 dbTwoWeeks 2024 (by decide) _ (headI_mem (by decide))

/-! ## Claim C6 — cumulative-mode history sum and monotonicity
(confirmed) -/

/-- C6: in the cumulative (all-years) branch each returned bucket is
annotated with the sum over *all* weekly buckets in history up to and
including its `(year, week)` key, and that annotation is monotone: a
chronologically later returned bucket never has a smaller cumulative sum. -/
theorem c6_cumulative_monotone :
    (∀ db : DB, ∀ r ∈ weeklyAll db, r.cum = cumAll db ⟨r.yr, r.wk, r.weekly⟩) ∧
    (∀ db : DB, ∀ r1 ∈ weeklyAll db, ∀ r2 ∈ weeklyAll db,
      lexLe (r1.yr, r1.wk) (r2.yr, r2.wk) → r1.cum ≤ r2.cum) := by
  constructor
  · intro db r hr
    obtain ⟨b, p, _, rfl⟩ := lagRows_mem _ _ _ _ hr
    rfl
  · intro db r1 h1 r2 h2 hle
    obtain ⟨b1, p1, _, rfl⟩ := lagRows_mem _ _ _ _ h1
    obtain ⟨b2, p2, _, rfl⟩ := lagRows_mem _ _ _ _ h2
    exact cumAll_mono db b1 b2 hle

/-- C6 witness: the history-sum annotation and monotonicity of the two
rows of the two-bucket database. -/
theorem c6_cumulative_monotone_witness :
    ((weeklyAll dbTwoWeeks).headI).cum =
      cumAll dbTwoWeeks
        ⟨((weeklyAll dbTwoWeeks).headI).yr, ((weeklyAll dbTwoWeeks).headI).wk,
         ((weeklyAll dbTwoWeeks).headI).weekly⟩ :=
  c6_cumulative_monotone.1 dbTwoWeeks _ (headI_mem (by decide))

/-! ## Claim C4 — district aggregator latest bucket and ranking
(corrected) -/

/-- C4 counterexample: with events in `(2024, w52)` and `(2025, w3)`, the
`MAX(year), MAX(epi_week)` pair is `(2025, 52)` — not a bucket present in
the data (the latest present bucket is `(2025, 3)`).  The emitted
last-epiweek count is therefore 0 even though the district has one event
in the latest present bucket. -/
theorem c4_latest_bucket_counterexample :
    specLatestPresent dbTwoYears none = some (2025, 3) ∧
    latestYrWk dbTwoYears none = (2025, 52) ∧
    ((2025, 52) ∉ (topMeaslesEvs dbTwoYears none).map (fun m => (m.yr, m.wk))) ∧
    (topDistricts dbTwoYears none).map (fun r => r.casesLast) = [0] ∧
    bucketCountD (districtData dbTwoYears none) "Dist A" 2025 3 = 1 := by
  refine ⟨by decide, by decide, by decide, by decide, by decide⟩

/-- C4 (amended): the "latest" epi-week of `get_measles_top_10_districts`
is the pair of *independent* maxima `(MAX(year), MAX(epi_week))` over the
filtered events — a pair that need not be a bucket present in the data —
and the per-district last/previous-week counts are restricted to that pair
and to its wrap-predecessor (week-1, wrapping week 1 to week 52 of
year-1); the ranking sorts descending by total cases with ties broken
descending by last-epiweek cases and truncates to 12 rows. -/
theorem c4_district_ranking :
    (∀ (db : DB) (y : Option ℕ), List.Sorted (keyDesc topKey) (topDistricts db y)) ∧
    (∀ (db : DB) (y : Option ℕ), (topDistricts db y).length ≤ 12) ∧
    (∀ (db : DB) (y : Option ℕ) (r : TopRow), r ∈ topDistricts db y →
      r.casesLast = bucketCountD (districtData db y) r.district
        (latestYrWk db y).1 (latestYrWk db y).2) ∧
    (∀ p : ℕ × ℕ, prevYrWk p = if p.2 = 1 then (p.1 - 1, 52) else (p.1, p.2 - 1)) := by
  refine ⟨?_, ?_, ?_, fun p => rfl⟩
  · intro db y
    exact List.Pairwise.sublist (List.take_sublist _ _) (List.sorted_insertionSort _ _)
  · intro db y
    exact List.length_take_le 12 _
  · intro db y r h
    simp only [topDistricts] at h
    have h1 := (List.take_sublist _ _).subset h
    have h2 := (List.mem_insertionSort _).1 h1
    have h3 := List.mem_filter.1 h2
    obtain ⟨n, _, rfl⟩ := List.mem_map.1 h3.1
    rfl

/-- C4 witness: the last-epiweek count characterisation at the head row of
the two-year database. -/
theorem c4_district_ranking_witness :
    ((topDistricts dbTwoYears none).headI).casesLast =
      bucketCountD (districtData dbTwoYears none)
        ((topDistricts dbTwoYears none).headI).district
        (latestYrWk dbTwoYears none).1 (latestYrWk dbTwoYears none).2 :=
  c4_district_ranking.2.2.1 dbTwoYears none _ (headI_mem (by decide))

/-! ## Claim C1 — district-name exclusions (corrected) -/

/-- Rows of `namedDistrictRows` carry a non-null district name that is
neither `"Unknown"` nor `"1 Test District"`. -/
theorem mem_namedDistrictRows (db : DB) (nm : String) (eid : ℕ)
    (h : (nm, eid) ∈ namedDistrictRows db) :
    (∃ o ∈ db.orgs, o.districtName = some nm) ∧
    nm ≠ "Unknown" ∧ nm ≠ "1 Test District" := by
  unfold namedDistrictRows at h
  rw [List.mem_flatMap] at h
  obtain ⟨t, _, h2⟩ := h
  rw [List.mem_map] at h2
  obtain ⟨o, ho, hoeq⟩ := h2
  obtain ⟨hoin, hcond⟩ := List.mem_filter.1 ho
  cases hdn : o.districtName with
  | none => rw [hdn] at hcond; simp at hcond
  | some n2 =>
    rw [hdn] at hcond
    simp only [Bool.and_eq_true] at hcond
    have hnm : o.districtName.getD "" = nm := congrArg Prod.fst hoeq
    rw [hdn] at hnm
    simp only [Option.getD_some] at hnm
    subst hnm
    refine ⟨⟨o, hoin, hdn⟩, ?_, ?_⟩
    · simpa using hcond.2.1
    · simpa using hcond.2.2

/-- Groups of `districtCasesGroups` carry a non-null district name that is
neither `"Unknown"` nor `"1 Test District"`. -/
theorem mem_districtCasesGroups (db : DB) (g : String × ℕ)
    (h : g ∈ districtCasesGroups db) :
    (∃ o ∈ db.orgs, o.districtName = some g.1) ∧
    g.1 ≠ "Unknown" ∧ g.1 ≠ "1 Test District" := by
  simp only [districtCasesGroups] at h
  obtain ⟨n, hn, rfl⟩ := List.mem_map.1 h
  have hn2 := List.mem_dedup.1 hn
  obtain ⟨row, hrow, hfst⟩ := List.mem_map.1 hn2
  have hr := mem_namedDistrictRows db row.1 row.2 hrow
  rw [hfst] at hr
  exact hr

/-- Rows of the `district_data` CTE carry a district name that exists
non-null in the hierarchy and is not `"Unknown"`. -/
theorem mem_districtData (db : DB) (year : Option ℕ) (d : DRow)
    (h : d ∈ districtData db year) :
    (∃ o ∈ db.orgs, o.districtName = some d.name) ∧ d.name ≠ "Unknown" := by
  simp only [districtData] at h
  rw [List.mem_flatMap] at h
  obtain ⟨m, _, h2⟩ := h
  rw [List.mem_flatMap] at h2
  obtain ⟨o, ho, h3⟩ := h2
  obtain ⟨hoin, hcond⟩ := List.mem_filter.1 ho
  rw [List.mem_map] at h3
  obtain ⟨dth, _, hmk⟩ := h3
  cases hdn : o.districtName with
  | none => rw [hdn] at hcond; simp at hcond
  | some n2 =>
    rw [hdn] at hcond
    simp only [Bool.and_eq_true] at hcond
    have hne : n2 ≠ "Unknown" := by simpa using hcond.2
    subst hmk
    constructor
    · refine ⟨o, hoin, ?_⟩
      show o.districtName = some ((⟨o.districtName.getD "Unknown District", m.eid, m.yr,
        m.wk, dth⟩ : DRow).name)
      rw [hdn]
      simp
    · show o.districtName.getD "Unknown District" ≠ "Unknown"
      rw [hdn]
      simpa using hne

/-- Events of the weekly-proportions CTE carry a district name that exists
non-null in the hierarchy (and nothing stronger: line 1434 filters only
`district_name IS NOT NULL`). -/
theorem mem_weekPropEvs_name (db : DB) (y : ℕ) (v : WPEv) (h : v ∈ weekPropEvs db y) :
    ∃ o ∈ db.orgs, o.districtName = some v.name := by
  unfold weekPropEvs at h
  have h1 := List.mem_dedup.1 h
  rw [List.mem_flatMap] at h1
  obtain ⟨e, _, h2⟩ := h1
  rw [List.mem_map] at h2
  obtain ⟨o, ho, hv⟩ := h2
  obtain ⟨hoin, hcond⟩ := List.mem_filter.1 ho
  simp only [Bool.and_eq_true] at hcond
  cases hdn : o.districtName with
  | none => rw [hdn] at hcond; simp at hcond
  | some n2 =>
    refine ⟨o, hoin, ?_⟩
    rw [hdn, ← hv]
    show some n2 = some (o.districtName.getD "")
    rw [hdn]
    rfl

/-- Group rows of the weekly-proportions aggregate carry a district name
that exists non-null in the hierarchy. -/
theorem mem_wpGroups_name (db : DB) (y : ℕ) (g : (ℕ × ℕ) × String × ℕ)
    (h : g ∈ wpGroups db y) : ∃ o ∈ db.orgs, o.districtName = some g.2.1 := by
  unfold wpGroups at h
  obtain ⟨k, hk, rfl⟩ := List.mem_map.1 h
  have hk2 := List.mem_dedup.1 hk
  obtain ⟨v, hv, hkeq⟩ := List.mem_map.1 hk2
  have hn := mem_weekPropEvs_name db y v hv
  rw [← hkeq]
  exact hn

/-- C1 counterexample: `get_measles_deaths_by_district` only requires the
joined district name to be non-null, so a death whose district is the
sentinel `"Unknown"` is emitted as a result row. -/
theorem c1_exclusion_counterexample :
    deathsByDistrict dbUnknownDeath = [(some "Unknown", 1)] := by
  decide

/-- C1 (amended): the full exclusion invariant (non-null, not "Unknown",
not "Unknown District", not a Test-District name) holds only for the
top-districts ranking.  `get_district_total_proportions` and the
choropleth mappings exclude exactly null, "Unknown" and "1 Test District"
— a hierarchy row stored with the literal name "Unknown District" is
emitted by both, as the two closed conjuncts at `dbUnknownDistrictName`
show.  `get_district_weekly_proportions` excludes only null names, so it
emits a stored "Unknown" row; and `get_measles_deaths_by_district` also
filters only on a non-null name at join time, so "Unknown" or
"1 Test District" rows can be emitted there, its group key being non-null
only under the hierarchy-key uniqueness invariant of the dimension
table. -/
theorem c1_district_exclusions :
    (∀ (db : DB) (y : Option ℕ) (r : TopRow), r ∈ topDistricts db y →
      r.district ≠ "Unknown" ∧ r.district ≠ "Unknown District" ∧
      hasSeg r.district "Test District" = false ∧ r.district ≠ "1 Test District" ∧
      (∃ o ∈ db.orgs, o.districtName = some r.district)) ∧
    (∀ (db : DB) (r : PropRow), r ∈ districtTotalProportions db →
      r.district ≠ "Unknown" ∧ r.district ≠ "1 Test District" ∧
      (∃ o ∈ db.orgs, o.districtName = some r.district)) ∧
    (∀ (db : DB) (g : String × ℕ), g ∈ choroCumulative db →
      g.1 ≠ "Unknown" ∧ g.1 ≠ "1 Test District" ∧
      (∃ o ∈ db.orgs, o.districtName = some g.1)) ∧
    (∀ (db : DB) (g : Option String × ℕ),
      (∀ o1 ∈ db.orgs, ∀ o2 ∈ db.orgs, o1.key = o2.key → o1 = o2) →
      g ∈ deathsByDistrict db → g.1 ≠ none) ∧
    (∀ (db : DB) (y : ℕ) (r : WPRow), r ∈ weeklyProportions db y →
      ∃ o ∈ db.orgs, o.districtName = some r.district) ∧
    choroCumulative dbUnknownDistrictName = [("Unknown District", 1)] ∧
    (districtTotalProportions dbUnknownDistrictName).map (fun r => r.district) =
      ["Unknown District"] ∧
    (weeklyProportions dbUnknownDeath 2024).map (fun r => r.district) = ["Unknown"] := by
  refine ⟨?_, ?_, ?_, ?_, ?_, by decide, by decide, by decide⟩
  · intro db y r h
    simp only [topDistricts] at h
    have h1 := (List.take_sublist _ _).subset h
    have h2 := (List.mem_insertionSort _).1 h1
    obtain ⟨hmem, hcond⟩ := List.mem_filter.1 h2
    simp only [Bool.and_eq_true] at hcond
    obtain ⟨n, hn, rfl⟩ := List.mem_map.1 hmem
    have hn2 := List.mem_dedup.1 hn
    obtain ⟨drow, hdrow, hname⟩ := List.mem_map.1 hn2
    have hdd := mem_districtData db y drow hdrow
    rw [hname] at hdd
    have hdistr : (summarizeD db y n).district = n := rfl
    have hseg : hasSeg (summarizeD db y n).district "Test District" = false := by
      have := hcond.1.2
      simp only [Bool.not_eq_eq_eq_not, Bool.not_true] at this
      exact this
    refine ⟨hdd.2, ?_, hseg, ?_, hdd.1⟩
    · have := hcond.2
      simp only [Bool.not_eq_eq_eq_not, Bool.not_true, beq_eq_false_iff_ne] at this
      exact this
    · intro heq
      have hseg2 : hasSeg n "Test District" = false := hseg
      have hn1 : n = "1 Test District" := heq
      rw [hn1] at hseg2
      have hT : hasSeg "1 Test District" "Test District" = true := by decide
      rw [hT] at hseg2
      exact absurd hseg2 (by simp)
  · intro db r h
    simp only [districtTotalProportions] at h
    have h1 := (List.take_sublist _ _).subset h
    have h2 := (List.mem_insertionSort _).1 h1
    obtain ⟨hmem, _⟩ := List.mem_filter.1 h2
    obtain ⟨g, hg, rfl⟩ := List.mem_map.1 hmem
    obtain ⟨he, h1, h2⟩ := mem_districtCasesGroups db g hg
    exact ⟨h1, h2, he⟩
  · intro db g h
    simp only [choroCumulative] at h
    have h2 := (List.mem_insertionSort _).1 h
    obtain ⟨he, hu, ht⟩ := mem_districtCasesGroups db g h2
    exact ⟨hu, ht, he⟩
  · intro db g huniq h
    simp only [deathsByDistrict] at h
    have h2 := (List.mem_insertionSort _).1 h
    obtain ⟨hmem, _⟩ := List.mem_filter.1 h2
    obtain ⟨n, hn, rfl⟩ := List.mem_map.1 hmem
    have hn2 := List.mem_dedup.1 hn
    obtain ⟨row, hrow, hfst⟩ := List.mem_map.1 hn2
    rw [List.mem_flatMap] at hrow
    obtain ⟨p, hp, hrow2⟩ := hrow
    rw [List.mem_map] at hrow2
    obtain ⟨o, ho, hoeq⟩ := hrow2
    obtain ⟨hoin, hocond⟩ := List.mem_filter.1 ho
    unfold deathsJoined at hp
    rw [List.mem_flatMap] at hp
    obtain ⟨e, _, hp2⟩ := hp
    split at hp2
    next =>
      rw [List.mem_flatMap] at hp2
      obtain ⟨a, _, hp3⟩ := hp2
      rw [List.mem_map] at hp3
      obtain ⟨o2, ho2, hpe⟩ := hp3
      obtain ⟨ho2in, ho2cond⟩ := List.mem_filter.1 ho2
      simp only [Bool.and_eq_true, beq_iff_eq] at hocond ho2cond
      have hpkey : p.2 = e.orgKey := by rw [← hpe]
      have hkeys : o.key = o2.key := by rw [hocond, hpkey, ho2cond.1]
      have hoo : o = o2 := huniq o hoin o2 ho2in hkeys
      have hsome : o.districtName.isSome = true := by rw [hoo]; exact ho2cond.2
      show (n, _).1 ≠ none
      rw [← hfst, ← hoeq]
      show o.districtName ≠ none
      intro hnone
      rw [hnone] at hsome
      simp at hsome
    next => simp at hp2
  · intro db y r h
    simp only [weeklyProportions] at h
    have h1 := (List.mem_insertionSort _).1 h
    obtain ⟨hmem, _⟩ := List.mem_filter.1 h1
    obtain ⟨g, hg, rfl⟩ := List.mem_map.1 hmem
    obtain ⟨hg2, _⟩ := List.mem_filter.1 hg
    exact mem_wpGroups_name db y g hg2

/-- C1 witness: the exclusion properties at the emitted head row of the
two-year database's top-districts ranking. -/
theorem c1_district_exclusions_witness :
    ((topDistricts dbTwoYears none).headI).district ≠ "Unknown" ∧
    ((topDistricts dbTwoYears none).headI).district ≠ "Unknown District" :=
  ⟨(c1_district_exclusions.1 dbTwoYears none _ (headI_mem (by decide))).1,
   (c1_district_exclusions.1 dbTwoYears none _ (headI_mem (by decide))).2.1⟩

end MeaslesReport
